import Mathlib

/-!
Verification development for the tender-tracking engine in `src/app.py`:
the Column Resolver, Flag Deriver, Reconciler (upsert), Urgency Engine,
Timeline Projector and Status Board, shallowly embedded in Lean.

Cells of the source spreadsheet are modelled by `Cell`: a string cell, a
numeric cell (pandas floats are modelled by rationals; the values exercised
here are exact), or NaN (a missing cell in pandas).  Python string/float
coercions used by the source (`str(x or "")`, `float`, truthiness of NaN)
are modelled explicitly below.
-/

deriving instance DecidableEq for Except

/-- A spreadsheet cell as seen by the pandas row accessors in `app.py`. -/
inductive Cell where
  | str (s : String)
  | num (q : ℚ)
  | nan
deriving DecidableEq, Repr

/-- A row is a finite map from column header to cell (in pandas every
column is present on every row; an empty cell is `Cell.nan`). -/
abbrev Row := List (String × Cell)

/-- Model of `r.get c` on a pandas row: the cell under header `c` (headers are
unique in a dataframe; a header not in the row never occurs in the code,
`Cell.str ""` stands for the `r.get(col, "")` default). -/
def rowGet (r : Row) (c : String) : Cell :=
  match r.find? (fun p => p.1 == c) with
  | some p => p.2
  | none => Cell.str ""

/-- A batch handed to the reconciler: the dataframe header list plus its
rows, in order. -/
structure Batch where
  headers : List String
  rows : List Row
deriving DecidableEq

/-- Python `lower()` restricted to the characters appearing in the candidate header spellings (ASCII plus the accented vowels and eñe). -/
def pyLowerChar (c : Char) : Char :=
  if c = 'Á' then 'á' else if c = 'É' then 'é' else if c = 'Í' then 'í'
  else if c = 'Ó' then 'ó' else if c = 'Ú' then 'ú' else if c = 'Ñ' then 'ñ'
  else c.toLower

/-- Python `upper()` restricted likewise (used by the flag derivers). -/
def pyUpperChar (c : Char) : Char :=
  if c = 'á' then 'Á' else if c = 'é' then 'É' else if c = 'í' then 'Í'
  else if c = 'ó' then 'Ó' else if c = 'ú' then 'Ú' else if c = 'ñ' then 'Ñ'
  else c.toUpper

def pyLower (s : String) : String := String.mk (s.data.map pyLowerChar)

def pyUpper (s : String) : String := String.mk (s.data.map pyUpperChar)

/-- Python `strip()` on a character list: drop leading and trailing
whitespace. -/
def trimList (cs : List Char) : List Char :=
  ((cs.dropWhile Char.isWhitespace).reverse.dropWhile Char.isWhitespace).reverse

/-- Python `strip()` on a string. -/
def strTrim (s : String) : String := String.mk (trimList s.data)

/-- Python `split()` with no argument: the maximal whitespace-free words,
runs of whitespace dropped. -/
def wordsAux : List Char → List Char → List (List Char)
  | [], acc => if acc.isEmpty then [] else [acc.reverse]
  | c :: cs, acc =>
    if c.isWhitespace then
      if acc.isEmpty then wordsAux cs [] else acc.reverse :: wordsAux cs []
    else wordsAux cs (c :: acc)

/-- Python `" ".join(words)`. -/
def joinSpace : List (List Char) → List Char
  | [] => []
  | [w] => w
  | w :: ws => w ++ ' ' :: joinSpace ws

/-- Model of `_norm_col` in `app.py`:
`" ".join(str(s or "").strip().lower().split())` — trim, fold case, collapse
internal whitespace. -/
def norm_col (s : String) : String :=
  String.mk (joinSpace (wordsAux ((trimList s.data).map pyLowerChar) []))

/-- Python dict comprehension `{_norm_col(c): c for c in cols}` looked up at
key `k`: the LAST column whose normal form is `k` wins (dict overwrite). -/
def lookupNorm (cols : List String) (k : String) : Option String :=
  cols.foldl (fun acc c => if norm_col c = k then some c else acc) none

/-- Model of `_pick_col` in `app.py`: first candidate whose normalized spelling is a
key of the normalized-header map. -/
def pick_col (cols : List String) : List String → Option String
  | [] => none
  | cand :: rest =>
    match lookupNorm cols (norm_col cand) with
    | some c => some c
    | none => pick_col cols rest

/-- Python `str(v or "")` on a cell.  `bool(nan)` is `True` in Python, so a
NaN cell becomes the literal string `"nan"`; a zero number is falsy and
becomes `""`.  `floatRepr` below renders the integral floats exercised by
this development the way Python prints them. -/
def floatRepr (q : ℚ) : String :=
  if q.den = 1 then toString q.num ++ ".0" else toString q

def pyStrOr (v : Cell) : String :=
  match v with
  | Cell.str s => s
  | Cell.num q => if q = 0 then "" else floatRepr q
  | Cell.nan => "nan"

/-- Model of `_txt` in `app.py`: `str(v or "").strip()`. -/
def txt (v : Cell) : String := strTrim (pyStrOr v)

/-- Model of `pd.notna` on a cell. -/
def pdNotNa (v : Cell) : Bool :=
  match v with
  | Cell.nan => false
  | _ => true

def allDigits (cs : List Char) : Bool := cs.all Char.isDigit

def digitsToNat (cs : List Char) : ℕ :=
  cs.foldl (fun a c => 10 * a + (c.toNat - 48)) 0

/-- Unsigned part of Python `float(str)`: digits with at most one decimal
point, at least one digit in total (exponents and the words inf/nan are not
exercised by the sheets this development models).  A comma, as in
`"1,000"`, is not accepted and raises `ValueError`. -/
def parseUnsigned (cs : List Char) : Except Unit ℚ :=
  match cs.splitOn '.' with
  | [intPart] =>
    if allDigits intPart ∧ intPart ≠ [] then .ok (digitsToNat intPart : ℚ)
    else .error ()
  | [intPart, fracPart] =>
    if allDigits intPart ∧ allDigits fracPart ∧ (intPart ≠ [] ∨ fracPart ≠ []) then
      .ok ((digitsToNat intPart : ℚ) +
        (digitsToNat fracPart : ℚ) / ((10 : ℚ) ^ fracPart.length))
    else .error ()
  | _ => .error ()

/-- Python `float(s)` on a string: strip whitespace, optional sign, then an
unsigned decimal literal; anything else raises. -/
def pyParseFloat (s : String) : Except Unit ℚ :=
  match trimList s.data with
  | '+' :: rest => parseUnsigned rest
  | '-' :: rest => (parseUnsigned rest).map (fun q => -q)
  | rest => parseUnsigned rest

/-- Python `float(cell)` as applied by the reconciler (always guarded by
`pd.notna`, so the NaN case is unreachable there). -/
def pyFloat (v : Cell) : Except Unit ℚ :=
  match v with
  | Cell.str s => pyParseFloat s
  | Cell.num q => .ok q
  | Cell.nan => .ok 0

/-- Model of `_to_date_str` in `app.py`: `None`/NaN yield `""`; otherwise
`pd.to_datetime(x, errors="coerce")` and the ISO date, `""` on `NaT`.
The sheets this development models carry dates as ISO `YYYY-MM-DD`
strings, the one form `parseIsoDate` accepts; a raw numeric cell (which
pandas would read as an epoch offset) is not exercised and yields `""`. -/
def isLeap (y : ℕ) : Bool := y % 4 = 0 ∧ (y % 100 ≠ 0 ∨ y % 400 = 0)

def daysInMonth (y m : ℕ) : ℕ :=
  if m = 2 then (if isLeap y then 29 else 28)
  else if m = 4 ∨ m = 6 ∨ m = 9 ∨ m = 11 then 30
  else 31

def pad2 (n : ℕ) : String :=
  if n < 10 then "0" ++ toString n else toString n

def parseIsoDate (s : String) : Option String :=
  match ((trimList s.data).splitOn '-') with
  | [y, m, d] =>
    if allDigits y ∧ allDigits m ∧ allDigits d ∧
        y.length = 4 ∧ 1 ≤ m.length ∧ m.length ≤ 2 ∧ 1 ≤ d.length ∧ d.length ≤ 2 then
      let yn := digitsToNat y
      let mn := digitsToNat m
      let dn := digitsToNat d
      if 1 ≤ mn ∧ mn ≤ 12 ∧ 1 ≤ dn ∧ dn ≤ daysInMonth yn mn then
        some (toString yn ++ "-" ++ pad2 mn ++ "-" ++ pad2 dn)
      else none
    else none
  | _ => none

def to_date_str (v : Cell) : String :=
  match v with
  | Cell.nan => ""
  | Cell.num _ => ""
  | Cell.str s => (parseIsoDate s).getD ""

/-- Whether `as` begins `bs`. -/
def leadsList : List Char → List Char → Bool
  | [], _ => true
  | _ :: _, [] => false
  | a :: as, b :: bs => a = b && leadsList as bs

/-- Whether `needle` occurs contiguously in `hay`. -/
def containsSub : List Char → List Char → Bool
  | n, [] => n.isEmpty
  | n, b :: tl => leadsList n (b :: tl) || containsSub n tl

/-- Python `needle in hay` on strings. -/
def pyIn (needle hay : String) : Bool := containsSub needle.toList hay.toList

/-- Model of `_flag_apoyo` in `app.py`: membership in the affirmative set
`{"SI", "SÍ", "X", "1", "TRUE", "LISTO", "OK"}`, else the APOYO / SOLICIT
keywords, else 0. -/
def flag_apoyo (v : Cell) : ℕ :=
  let s := pyUpper (txt v)
  if s = "" then 0
  else if s = "SI" ∨ s = "SÍ" ∨ s = "X" ∨ s = "1" ∨ s = "TRUE" ∨ s = "LISTO" ∨ s = "OK" then 1
  else if pyIn "APOYO" s || pyIn "SOLICIT" s then 1
  else 0

/-- Model of `_flag_carta` in `app.py`: the CARTA / ENVIAD / LISTO / APOYO keywords. -/
def flag_carta (v : Cell) : ℕ :=
  let s := pyUpper (txt v)
  if s = "" then 0
  else if pyIn "CARTA" s || pyIn "ENVIAD" s || pyIn "LISTO" s || pyIn "APOYO" s then 1
  else 0

/-- The column mapping computed at the top of `upsert_licitaciones_from_excel`
(one `_pick_col` call per canonical field). -/
structure Cols where
  clave : Option String
  tipo : Option String
  titulo : Option String
  institucion : Option String
  unidad : Option String
  estado : Option String
  integrador : Option String
  monto : Option String
  pub : Option String
  ja : Option String
  apertura : Option String
  fallo : Option String
  firma : Option String
  razon : Option String
  estatus : Option String
  responsable : Option String
  solicita_apoyo : Option String
  cartas : Option String
deriving DecidableEq

/-- The candidate lists of `app.py` lines 639-660, verbatim. -/
def resolveCols (headers : List String) : Cols where
  clave := pick_col headers ["NUMERO DE LA LICITACIÓN", "NUMERO DE LA LICITACION", "CLAVE", "EXPEDIENTE"]
  tipo := pick_col headers ["TIPO"]
  titulo := pick_col headers ["TITULO", "DESCRIPCION", "ESPECIALIDAD SERV.INT (LAB)"]
  institucion := pick_col headers ["CONVOCANTE", "INSTITUCION"]
  unidad := pick_col headers ["UNIDAD", "HOSPITAL"]
  estado := pick_col headers ["ESTADO"]
  integrador := pick_col headers ["DISTRIBUIDOR ACTUAL", "INTEGRADOR", "LICITANTE GANADOR"]
  monto := pick_col headers ["MONTO", "MONTO ESTIMADO", "IMPORTE"]
  pub := pick_col headers ["FECHA DE PUBLICACIÓN", "FECHA DE PUBLICACION", "PUBLICACION"]
  ja := pick_col headers ["JUNTA DE ACLARACIONES", "JA", "JUNTA"]
  apertura := pick_col headers ["APERTURA", "PROPUESTA ECONOMICA"]
  fallo := pick_col headers ["FALLO"]
  firma := pick_col headers ["FIRMA", "FIRMA CONTRATO", "FIRMA DE CONTRATO"]
  razon := pick_col headers ["RAZON SOCIAL"]
  estatus := pick_col headers ["ESTATUS DE LA LICITACION", "ESTATUS"]
  responsable := pick_col headers ["ELABORO", "RESPONSABLE"]
  solicita_apoyo := pick_col headers ["SOLICITA APOYO", "SOLICITUD APOYO", "SOLICITO APOYO", "APOYO", "SOLICITA_APOYO", "SOLICITUD DE APOYO"]
  cartas := pick_col headers ["CARTAS", "CARTA", "CARTA APOYO", "CARTA ENVIADA", "CARTAS "]

/-- Model of `str(r.get(col, "") or "").strip() if col else ""` — the text-field
pattern of the payload dict (also `_txt(r.get(col)) if col else ""`, which
is the same computation). -/
def txtField (col : Option String) (r : Row) : String :=
  match col with
  | none => ""
  | some c => txt (rowGet r c)

/-- Model of `_to_date_str(r.get(col)) if col else ""`. -/
def dateField (col : Option String) (r : Row) : String :=
  match col with
  | none => ""
  | some c => to_date_str (rowGet r c)

/-- Model of `float(r.get(col_monto)) if (col_monto and pd.notna(r.get(col_monto))) else 0.0`
— the one payload entry that can raise (`float` on an unparseable string). -/
def montoField (col : Option String) (r : Row) : Except Unit ℚ :=
  match col with
  | none => .ok 0
  | some c =>
    if pdNotNa (rowGet r c) then pyFloat (rowGet r c) else .ok 0

/-- Model of `_flag_apoyo(r.get(col)) if col else 0` (same pattern for `_flag_carta`). -/
def flagField (f : Cell → ℕ) (col : Option String) (r : Row) : ℕ :=
  match col with
  | none => 0
  | some c => f (rowGet r c)

/-- The payload dict built per row in `upsert_licitaciones_from_excel`. -/
structure Payload where
  clave : String
  titulo : String
  tipo : String
  institucion : String
  unidad : String
  estado : String
  integrador : String
  monto_estimado : ℚ
  fecha_publicacion : String
  junta_aclaraciones : String
  apertura : String
  fallo : String
  firma_contrato : String
  solicita_apoyo_txt : String
  cartas : String
  pidio_apoyo : ℕ
  carta_enviada : ℕ
  apoyo_id : Option ℕ
  razon_social : String
  estatus : String
  responsable : String
  link : String
  notas : String
deriving DecidableEq

def mkPayload (cols : Cols) (clave : String) (r : Row) : Except Unit Payload :=
  match montoField cols.monto r with
  | .error e => .error e
  | .ok m => .ok
    { clave := clave
      titulo := txtField cols.titulo r
      tipo := txtField cols.tipo r
      institucion := txtField cols.institucion r
      unidad := txtField cols.unidad r
      estado := txtField cols.estado r
      integrador := txtField cols.integrador r
      monto_estimado := m
      fecha_publicacion := dateField cols.pub r
      junta_aclaraciones := dateField cols.ja r
      apertura := dateField cols.apertura r
      fallo := dateField cols.fallo r
      firma_contrato := dateField cols.firma r
      solicita_apoyo_txt := txtField cols.solicita_apoyo r
      cartas := txtField cols.cartas r
      pidio_apoyo := flagField flag_apoyo cols.solicita_apoyo r
      carta_enviada := flagField flag_carta cols.cartas r
      apoyo_id := none
      razon_social := txtField cols.razon r
      estatus := txtField cols.estatus r
      responsable := txtField cols.responsable r
      link := ""
      notas := "" }

/-- A row of the `licitaciones` table, restricted to the columns the
reconciler reads or writes.  `solicita_apoyo_txt` and `cartas` are
`Option String` because the INSERT statement omits them (SQL NULL) while
the UPDATE statement sets them. -/
structure Rec where
  tipo : String
  clave : String
  titulo : String
  institucion : String
  unidad : String
  estado : String
  integrador : String
  monto_estimado : ℚ
  fecha_publicacion : String
  junta_aclaraciones : String
  apertura : String
  fallo : String
  firma_contrato : String
  solicita_apoyo_txt : Option String
  cartas : Option String
  pidio_apoyo : ℕ
  apoyo_id : Option ℕ
  carta_enviada : ℕ
  razon_social : String
  estatus : String
  responsable : String
  link : String
  notas : String
deriving DecidableEq

/-- The canonical store: the `licitaciones` table in row order (SQLite
appends inserts). -/
abbrev Store := List Rec

/-- The INSERT statement of `upsert_licitaciones_from_excel`: every listed
column from the payload; `solicita_apoyo_txt` and `cartas` are not listed
and stay NULL. -/
def insertRec (p : Payload) : Rec where
  tipo := p.tipo
  clave := p.clave
  titulo := p.titulo
  institucion := p.institucion
  unidad := p.unidad
  estado := p.estado
  integrador := p.integrador
  monto_estimado := p.monto_estimado
  fecha_publicacion := p.fecha_publicacion
  junta_aclaraciones := p.junta_aclaraciones
  apertura := p.apertura
  fallo := p.fallo
  firma_contrato := p.firma_contrato
  solicita_apoyo_txt := none
  cartas := none
  pidio_apoyo := p.pidio_apoyo
  apoyo_id := p.apoyo_id
  carta_enviada := p.carta_enviada
  razon_social := p.razon_social
  estatus := p.estatus
  responsable := p.responsable
  link := p.link
  notas := p.notas

/-- The UPDATE statement: exactly the columns listed in the SQL SET clause;
`clave`, `apoyo_id`, `link` and `notas` are not in that clause and keep
their stored values. -/
def updateRec (p : Payload) (old : Rec) : Rec :=
  { old with
    tipo := p.tipo
    titulo := p.titulo
    institucion := p.institucion
    unidad := p.unidad
    estado := p.estado
    integrador := p.integrador
    monto_estimado := p.monto_estimado
    fecha_publicacion := p.fecha_publicacion
    junta_aclaraciones := p.junta_aclaraciones
    apertura := p.apertura
    fallo := p.fallo
    firma_contrato := p.firma_contrato
    razon_social := p.razon_social
    estatus := p.estatus
    solicita_apoyo_txt := some p.solicita_apoyo_txt
    cartas := some p.cartas
    pidio_apoyo := p.pidio_apoyo
    carta_enviada := p.carta_enviada
    responsable := p.responsable }

/-- Model of `SELECT id FROM licitaciones WHERE clave=:c LIMIT 1` followed by
`UPDATE ... WHERE id=:id`: the first stored row with this clave is updated. -/
def updateFirst (k : String) (p : Payload) : Store → Store
  | [] => []
  | r :: rest =>
    if r.clave = k then updateRec p r :: rest else r :: updateFirst k p rest

/-- Does a row with this clave exist in the store? -/
def hasClave (s : Store) (k : String) : Bool :=
  s.any (fun r => r.clave = k)

/-- The clave of a row: `str(r.get(col_clave, "") or "").strip()`. -/
def claveOf (cc : String) (r : Row) : String := txt (rowGet r cc)

/-- The per-row loop of `upsert_licitaciones_from_excel`.  Each row runs in
its own transaction (`engine.begin()` per row), so when `float` raises on a
later row, earlier rows stay committed and the exception propagates: the
result pairs the store reached so far with the counts or the error. -/
def upsertRows (cols : Cols) (cc : String) :
    Store → List Row → ℕ → ℕ → Store × Except Unit (ℕ × ℕ)
  | store, [], ins, upd => (store, .ok (ins, upd))
  | store, r :: rest, ins, upd =>
    let clave := claveOf cc r
    if clave = "" then upsertRows cols cc store rest ins upd
    else
      match mkPayload cols clave r with
      | .error e => (store, .error e)
      | .ok p =>
        if hasClave store clave then
          upsertRows cols cc (updateFirst clave p store) rest ins (upd + 1)
        else
          upsertRows cols cc (store ++ [insertRec p]) rest (ins + 1) upd

/-- Model of `upsert_licitaciones_from_excel` in `app.py`: empty dataframe → `(0,0)`;
no resolvable clave column → `(0,0)`; otherwise the per-row upsert loop. -/
def upsert_licitaciones_from_excel (store : Store) (b : Batch) :
    Store × Except Unit (ℕ × ℕ) :=
  if b.rows.isEmpty then (store, .ok (0, 0))
  else
    let cols := resolveCols b.headers
    match cols.clave with
    | none => (store, .ok (0, 0))
    | some cc => upsertRows cols cc store b.rows 0 0

/-- Model of `min_no_null` in the RESUMEN page of `app.py` (lines 1508-1513): the
minimum of the non-null day-deltas of junta de aclaraciones, apertura and
fallo, or null when all three are unknown (`min` over a Python list is the
left fold of binary `min`). -/
def min_no_null (dJA dAP dFA : Option ℤ) : Option ℤ :=
  match ([dJA, dAP, dFA].filterMap id) with
  | [] => none
  | v :: vs => some (vs.foldl min v)

/-- Model of `semaforo` in `app.py`: the urgency band of an overall day-delta,
rendered as the board label strings.  "🔴 Vencido" is the `overdue` band,
"🟠 Hoy" is `dueToday`, "🟡 En d días" is `dueSoon`, "🟢 En d días" is
`scheduled` and "—" is `unclassified`. -/
def semaforo (d : Option ℤ) : String :=
  match d with
  | none => "—"
  | some d =>
    if d < 0 then "🔴 Vencido (" ++ toString d.natAbs ++ " días)"
    else if d = 0 then "🟠 Hoy"
    else if d ≤ 7 then "🟡 En " ++ toString d ++ " días"
    else "🟢 En " ++ toString d ++ " días"

/-- Model of `clamp` in `app.py`: `max(a, min(b, x))`. -/
def clamp (x a b : ℤ) : ℤ := max a (min b x)

/-- Model of `pos_pct` in `app.py`: `None` maps to `None`, otherwise
`100 * (clamp(dias, 0, ventana) / ventana)` with Python true division. -/
def pos_pct (dias : Option ℤ) (ventana : ℤ) : Option ℚ :=
  match dias with
  | none => none
  | some d => some (100 * ((clamp d 0 ventana : ℚ) / (ventana : ℚ)))

/-- Model of `estados` in the TABLERO page of `app.py` (line 1624): the five
recognized status states, in board order. -/
def estados : List String := ["Abierta", "En análisis", "En gestión", "Cerrada", "Cancelada"]

/-- Modelled from the spec: the Status Board `transition(record, newState)`
operation.  The source has no standalone transition function — the TABLERO
page drives `UPDATE licitaciones SET estatus=:e` through a selectbox whose
options are exactly `estados`, so a target outside `estados` can never be
applied; the spec reframes that boundary as an explicit rejection.  The
accepted case performs the UPDATE of the status field as in the source. -/
def transition (r : Rec) (nuevo : String) : Except Unit Rec :=
  if nuevo ∈ estados then .ok { r with estatus := nuevo } else .error ()

/-- A concrete record used to instantiate witness statements. -/
def rec0 : Rec where
  tipo := ""
  clave := "LIC-001"
  titulo := "Reactivos"
  institucion := "IMSS"
  unidad := "HGZ 1"
  estado := "CDMX"
  integrador := ""
  monto_estimado := 5
  fecha_publicacion := ""
  junta_aclaraciones := ""
  apertura := ""
  fallo := ""
  firma_contrato := ""
  solicita_apoyo_txt := none
  cartas := none
  pidio_apoyo := 0
  apoyo_id := some 7
  carta_enviada := 0
  razon_social := ""
  estatus := "Abierta"
  responsable := "Ana"
  link := "http://example.com"
  notas := "nota manual"

/-- C4: for every record and target state, the status transition is rejected
with an explicit error and no state change when the target is not one of the
five recognized states (`estados`), and otherwise it updates exactly the
status field of the record. -/
theorem c4_status_transition (r : Rec) (nuevo : String) :
    (nuevo ∉ estados → transition r nuevo = .error ()) ∧
    (nuevo ∈ estados → transition r nuevo = .ok { r with estatus := nuevo }) := by
  constructor <;> intro h <;> simp [transition, h]

/-- C4 witness: `transition(rec0, "Bogus")` is rejected, while a recognized
target updates the status field. -/
theorem c4_status_transition_witness :
    transition rec0 "Bogus" = .error () ∧
    transition rec0 "Cerrada" = .ok { rec0 with estatus := "Cerrada" } :=
  ⟨(c4_status_transition rec0 "Bogus").1 (by decide),
   (c4_status_transition rec0 "Cerrada").2 (by decide)⟩

/-- C6: the overall urgency delta (`min_no_null`) is the minimum of the
known per-milestone deltas — none exactly when all three are unknown, and
any produced value is attained by a milestone and bounds every known delta
from below — and `semaforo` classifies the overall delta into the bands:
`-1` → overdue ("🔴 Vencido"), `0` → dueToday ("🟠 Hoy"), `1` and `7` →
dueSoon ("🟡 En d días"), `8` → scheduled ("🟢 En d días"), all-unknown →
unclassified ("—"). -/
theorem c6_urgency_minimum_and_bands :
    ∀ dJA dAP dFA : Option ℤ,
      ((min_no_null dJA dAP dFA = none ↔ dJA = none ∧ dAP = none ∧ dFA = none) ∧
       (∀ m : ℤ, min_no_null dJA dAP dFA = some m →
         (dJA = some m ∨ dAP = some m ∨ dFA = some m) ∧
         (∀ v : ℤ, dJA = some v ∨ dAP = some v ∨ dFA = some v → m ≤ v))) ∧
      semaforo none = "—" ∧
      semaforo (some (-1)) = "🔴 Vencido (1 días)" ∧
      semaforo (some 0) = "🟠 Hoy" ∧
      semaforo (some 1) = "🟡 En 1 días" ∧
      semaforo (some 7) = "🟡 En 7 días" ∧
      semaforo (some 8) = "🟢 En 8 días" := by
  intro dJA dAP dFA
  refine ⟨⟨?_, ?_⟩, by decide, by decide, by decide, by decide, by decide, by decide⟩
  · rcases dJA with _ | a <;> rcases dAP with _ | b <;> rcases dFA with _ | c <;>
      simp [min_no_null]
  · intro m hm
    rcases dJA with _ | a <;> rcases dAP with _ | b <;> rcases dFA with _ | c <;>
      simp [min_no_null] at hm <;>
      refine ⟨?_, fun v hv => ?_⟩ <;>
      simp_all <;>
      omega

/-- C6 witness: the scenario given in the spec itself — deltas `{3, -2, unknown}` give
overall `-2`, which is attained and is a lower bound of the known deltas. -/
theorem c6_urgency_minimum_and_bands_witness :
    min_no_null (some 3) (some (-2)) none = some (-2) ∧ (-2 : ℤ) ≤ 3 :=
  ⟨by decide,
   (((c6_urgency_minimum_and_bands (some 3) (some (-2)) none).1.2 (-2)
      (by decide)).2 3 (Or.inl rfl))⟩

/-- C7: for every day-delta and positive window, the timeline projection
maps null to null and otherwise equals `100 * clamp(delta, 0, window) /
window`; in particular `project(-5,60)=0`, `project(0,60)=0`,
`project(30,60)=50`, `project(90,60)=100`, `project(null,60)=null`. -/
theorem c7_timeline_projection (d w : ℤ) (hw : 0 < w) :
    pos_pct none w = none ∧
    pos_pct (some d) w = some (100 * ((max 0 (min d w) : ℤ) : ℚ) / (w : ℚ)) ∧
    pos_pct (some (-5)) 60 = some 0 ∧
    pos_pct (some 0) 60 = some 0 ∧
    pos_pct (some 30) 60 = some 50 ∧
    pos_pct (some 90) 60 = some 100 ∧
    pos_pct none 60 = none := by
  refine ⟨rfl, ?_, by norm_num [pos_pct, clamp], by norm_num [pos_pct, clamp],
    by norm_num [pos_pct, clamp], by norm_num [pos_pct, clamp], rfl⟩
  simp [pos_pct, clamp, min_comm, mul_div_assoc]

/-- C7 witness: instantiated at delta 30, window 60. -/
theorem c7_timeline_projection_witness :
    (0 : ℤ) < 60 ∧
    (pos_pct none 60 = none ∧
     pos_pct (some 30) 60 = some (100 * ((max 0 (min 30 60 : ℤ) : ℤ) : ℚ) / (60 : ℚ)) ∧
     pos_pct (some (-5)) 60 = some 0 ∧
     pos_pct (some 0) 60 = some 0 ∧
     pos_pct (some 30) 60 = some 50 ∧
     pos_pct (some 90) 60 = some 100 ∧
     pos_pct none 60 = none) :=
  ⟨by decide, c7_timeline_projection 30 60 (by decide)⟩

/-- C9 counterexample: the affirmative token set of the claim includes "YES" and
"DONE", but `flag_apoyo` maps both to 0, and the claim applies the token set
to the letter flag too, but `flag_carta` has no token set at all: "X", "1"
and "TRUE" map to 0. -/
theorem c9_flag_deriver_counterexample :
    flag_apoyo (Cell.str "YES") = 0 ∧ flag_apoyo (Cell.str "DONE") = 0 ∧
    flag_carta (Cell.str "X") = 0 ∧ flag_carta (Cell.str "1") = 0 ∧
    flag_carta (Cell.str "TRUE") = 0 := by
  refine ⟨by decide, by decide, by decide, by decide, by decide⟩

/-- C9 amended: both derivers trim and uppercase, map empty to 0 and
everything else to 0 or 1; the support flag is 1 exactly for the affirmative
set `{SI, SÍ, X, 1, TRUE, LISTO, OK}` or text containing APOYO or SOLICIT;
the letter flag has no affirmative token set and is 1 exactly for text
containing CARTA, ENVIAD, LISTO or APOYO. -/
theorem c9_flag_deriver_amended :
    ∀ v : Cell,
      (flag_apoyo v = 0 ∨ flag_apoyo v = 1) ∧
      (flag_apoyo v = 1 ↔
        (pyUpper (txt v) ≠ "" ∧
          (pyUpper (txt v) = "SI" ∨ pyUpper (txt v) = "SÍ" ∨ pyUpper (txt v) = "X" ∨
           pyUpper (txt v) = "1" ∨ pyUpper (txt v) = "TRUE" ∨ pyUpper (txt v) = "LISTO" ∨
           pyUpper (txt v) = "OK" ∨
           pyIn "APOYO" (pyUpper (txt v)) = true ∨
           pyIn "SOLICIT" (pyUpper (txt v)) = true))) ∧
      (flag_carta v = 0 ∨ flag_carta v = 1) ∧
      (flag_carta v = 1 ↔
        (pyUpper (txt v) ≠ "" ∧
          (pyIn "CARTA" (pyUpper (txt v)) = true ∨ pyIn "ENVIAD" (pyUpper (txt v)) = true ∨
           pyIn "LISTO" (pyUpper (txt v)) = true ∨ pyIn "APOYO" (pyUpper (txt v)) = true))) := by
  intro v
  simp only [flag_apoyo, flag_carta]
  refine ⟨?_, ?_, ?_, ?_⟩ <;> split_ifs <;> simp_all <;> tauto

/-- A batch whose headers resolve no clave candidate. -/
def bNoKey : Batch := { headers := ["FOO"], rows := [[("FOO", Cell.str "bar")]] }

/-- A batch with a clave header but no rows (an empty sheet). -/
def bEmptySheet : Batch := { headers := ["CLAVE"], rows := [] }

/-- C3 counterexample: a batch without a resolvable key column yields the
bare tuple `(0, 0)` — byte-for-byte the same result as an empty sheet, so
the caller is NOT told that a MissingKeyColumn condition occurred rather
than the sheet being empty; the only output channel of the function is
the count pair. -/
theorem c3_missing_key_counterexample :
    upsert_licitaciones_from_excel [] bNoKey = ([], .ok (0, 0)) ∧
    upsert_licitaciones_from_excel [] bEmptySheet = ([], .ok (0, 0)) ∧
    upsert_licitaciones_from_excel [] bNoKey =
      upsert_licitaciones_from_excel [] bEmptySheet := by
  refine ⟨by decide, by decide, by decide⟩

/-- C3 amended: when no header resolves the clave column, reconciliation
processes zero rows, leaves the store unchanged and reports `(0, 0)` — but
the caller receives only that pair, indistinguishable from an empty sheet;
no explicit MissingKeyColumn condition is surfaced. -/
theorem c3_missing_key_amended (store : Store) (b : Batch)
    (h : (resolveCols b.headers).clave = none) :
    upsert_licitaciones_from_excel store b = (store, .ok (0, 0)) := by
  unfold upsert_licitaciones_from_excel
  by_cases he : b.rows.isEmpty <;> simp [he, h]

/-- C3 witness: the amended theorem at a store with one record and the
keyless batch. -/
theorem c3_missing_key_amended_witness :
    upsert_licitaciones_from_excel [rec0] bNoKey = ([rec0], .ok (0, 0)) :=
  c3_missing_key_amended [rec0] bNoKey (by decide)

/-- A one-row batch whose amount cell is the string "1,000". -/
def bBadAmount : Batch :=
  { headers := ["CLAVE", "MONTO"]
    rows := [[("CLAVE", Cell.str "L-1"), ("MONTO", Cell.str "1,000")]] }

/-- A two-row batch: first row fine, amount cell of the second row unparseable. -/
def bBadAmountSecond : Batch :=
  { headers := ["CLAVE", "MONTO"]
    rows := [[("CLAVE", Cell.str "L-1"), ("MONTO", Cell.num 5)],
             [("CLAVE", Cell.str "L-2"), ("MONTO", Cell.str "abc")]] }

/-- C5 counterexample: an amount cell that cannot be parsed as a number
does NOT become 0.0 — `float("1,000")` raises, the import aborts with the
store untouched and no counts returned. -/
theorem c5_amount_counterexample :
    upsert_licitaciones_from_excel [] bBadAmount = ([], .error ()) := by
  decide

/-- C5 amended: an absent amount column or a NaN amount cell yields 0.0,
but a present cell that `float` cannot parse raises: the batch aborts at
that row (claimed per-cell recovery does not exist), with the rows before
it already committed (per-row transactions). -/
theorem c5_amount_policy_amended :
    (∀ r : Row, montoField none r = .ok 0) ∧
    (∀ (c : String) (r : Row), rowGet r c = Cell.nan → montoField (some c) r = .ok 0) ∧
    pyParseFloat "1,000" = .error () ∧
    (upsert_licitaciones_from_excel [] bBadAmountSecond).2 = .error () ∧
    (upsert_licitaciones_from_excel [] bBadAmountSecond).1.map Rec.clave = ["L-1"] := by
  refine ⟨fun r => rfl, fun c r h => by simp [montoField, h, pdNotNa], by decide,
    by decide, by decide⟩

/-- A row whose amount cell is NaN (empty cell in the sheet). -/
def rNanAmount : Row := [("CLAVE", Cell.str "L-3"), ("MONTO", Cell.nan)]

/-- C5 witness: the NaN clause of the amended theorem at a concrete row. -/
theorem c5_amount_policy_amended_witness :
    montoField (some "MONTO") rNanAmount = .ok 0 :=
  c5_amount_policy_amended.2.1 "MONTO" rNanAmount rfl

/-- The end-to-end scenario batch of the spec: two rows sharing key "A-1", the
first with title "X" and amount "1,000", the second with only title "Y". -/
def bScenario : Batch :=
  { headers := ["CLAVE", "TITULO", "MONTO"]
    rows := [[("CLAVE", Cell.str "A-1"), ("TITULO", Cell.str "X"), ("MONTO", Cell.str "1,000")],
             [("CLAVE", Cell.str "A-1"), ("TITULO", Cell.str "Y"), ("MONTO", Cell.nan)]] }

/-- The same scenario with the first amount as the number 1000 instead of
the string "1,000". -/
def bScenarioNum : Batch :=
  { headers := ["CLAVE", "TITULO", "MONTO"]
    rows := [[("CLAVE", Cell.str "A-1"), ("TITULO", Cell.str "X"), ("MONTO", Cell.num 1000)],
             [("CLAVE", Cell.str "A-1"), ("TITULO", Cell.str "Y"), ("MONTO", Cell.nan)]] }

/-- The record the code actually produces for `bScenarioNum`. -/
def recScenario : Rec where
  tipo := ""
  clave := "A-1"
  titulo := "Y"
  institucion := ""
  unidad := ""
  estado := ""
  integrador := ""
  monto_estimado := 0
  fecha_publicacion := ""
  junta_aclaraciones := ""
  apertura := ""
  fallo := ""
  firma_contrato := ""
  solicita_apoyo_txt := some ""
  cartas := some ""
  pidio_apoyo := 0
  apoyo_id := none
  carta_enviada := 0
  razon_social := ""
  estatus := ""
  responsable := ""
  link := ""
  notas := ""

/-- C1 counterexample: on the scenario exactly as stated the import does
not produce any record or report at all — `float("1,000")` raises on the
first row and the whole import aborts with the store still empty. -/
theorem c1_scenario_counterexample :
    upsert_licitaciones_from_excel [] bScenario = ([], .error ()) := by
  decide

/-- C1 amended: with a numeric 1000 amount (so no parse abort), the batch
yields a single record with title "Y" — but the report is
`insertedCount=1, updatedCount=1`, not `(1, 0)`: in-batch duplicates are
not collapsed, the second row is reconciled as an update of the record the
first row inserted; and that update overwrites the amount with its default
0.0, because the batch does carry the amount column and the cell of the
second row is empty. -/
theorem c1_scenario_amended :
    upsert_licitaciones_from_excel [] bScenarioNum = ([recScenario], .ok (1, 1)) := by
  decide

/-- An existing record with a manually maintained title. -/
def recOld : Rec := { rec0 with clave := "A-1", titulo := "Original" }

/-- A batch that carries only the clave column (no TITULO, no MONTO, ...). -/
def bOnlyClave : Batch :=
  { headers := ["CLAVE"], rows := [[("CLAVE", Cell.str "A-1")]] }

/-- C2 counterexample: reconciling a batch whose source table does NOT
contain the title column erases the title of the existing record — the UPDATE
writes the payload default "" instead of leaving the field untouched. -/
theorem c2_frame_counterexample :
    recOld.titulo = "Original" ∧
    (upsert_licitaciones_from_excel [recOld] bOnlyClave).2 = .ok (0, 1) ∧
    (upsert_licitaciones_from_excel [recOld] bOnlyClave).1.map Rec.titulo = [""] := by
  refine ⟨rfl, by decide, by decide⟩

/-- C2 amended: an update overwrites every field in the fixed
column list of the UPDATE with the payload value of the row, substituting the defined default
("" for text, 0.0 for the amount, 0 for flags) whenever the batch lacks
that column — so a missing column blanks the field rather than leaving it
untouched.  Only `clave`, `apoyo_id`, `link` and `notas` (outside the SET
clause) keep their stored values. -/
theorem c2_update_overwrites_missing_columns (old : Rec)
    (h1 : strTrim old.clave = old.clave) (h2 : old.clave ≠ "") :
    upsert_licitaciones_from_excel [old]
        { headers := ["CLAVE"], rows := [[("CLAVE", Cell.str old.clave)]] } =
      ([{ old with
            tipo := "", titulo := "", institucion := "", unidad := "", estado := "",
            integrador := "", monto_estimado := 0, fecha_publicacion := "",
            junta_aclaraciones := "", apertura := "", fallo := "", firma_contrato := "",
            razon_social := "", estatus := "", solicita_apoyo_txt := some "",
            cartas := some "", pidio_apoyo := 0, carta_enviada := 0, responsable := "" }],
        .ok (0, 1)) := by
  have hcols : resolveCols ["CLAVE"] =
      ⟨some "CLAVE", none, none, none, none, none, none, none, none,
       none, none, none, none, none, none, none, none, none⟩ := by decide
  have hstep : upsert_licitaciones_from_excel [old]
      { headers := ["CLAVE"], rows := [[("CLAVE", Cell.str old.clave)]] } =
      upsertRows (resolveCols ["CLAVE"]) "CLAVE" [old]
        [[("CLAVE", Cell.str old.clave)]] 0 0 := rfl
  rw [hstep, hcols]
  simp [upsertRows, claveOf, rowGet, txt, pyStrOr, h1, h2, mkPayload, montoField,
    txtField, dateField, flagField, hasClave, updateFirst, updateRec]

/-- A second existing record used to witness the amended C2 theorem. -/
def recW : Rec := { rec0 with clave := "A-2" }

/-- C2 witness: the amended theorem at `recW`. -/
theorem c2_update_overwrites_missing_columns_witness :
    upsert_licitaciones_from_excel [recW]
        { headers := ["CLAVE"], rows := [[("CLAVE", Cell.str recW.clave)]] } =
      ([{ recW with
            tipo := "", titulo := "", institucion := "", unidad := "", estado := "",
            integrador := "", monto_estimado := 0, fecha_publicacion := "",
            junta_aclaraciones := "", apertura := "", fallo := "", firma_contrato := "",
            razon_social := "", estatus := "", solicita_apoyo_txt := some "",
            cartas := some "", pidio_apoyo := 0, carta_enviada := 0, responsable := "" }],
        .ok (0, 1)) :=
  c2_update_overwrites_missing_columns recW (by decide) (by decide)

/-- The store positions of `s` survive into `t` with the manually
maintained fields (`clave`, `link`, `notas`, `apoyo_id`) intact. -/
def keyFieldsPreserved (s t : Store) : Prop :=
  s.length ≤ t.length ∧
  ∀ i, i < s.length →
    (t.getD i rec0).clave = (s.getD i rec0).clave ∧
    (t.getD i rec0).link = (s.getD i rec0).link ∧
    (t.getD i rec0).notas = (s.getD i rec0).notas ∧
    (t.getD i rec0).apoyo_id = (s.getD i rec0).apoyo_id

theorem kfp_refl (s : Store) : keyFieldsPreserved s s :=
  ⟨le_refl _, fun _ _ => ⟨rfl, rfl, rfl, rfl⟩⟩

theorem kfp_trans {s t u : Store} (h1 : keyFieldsPreserved s t)
    (h2 : keyFieldsPreserved t u) : keyFieldsPreserved s u := by
  refine ⟨le_trans h1.1 h2.1, fun i hi => ?_⟩
  have ht := h1.2 i hi
  have hu := h2.2 i (lt_of_lt_of_le hi h1.1)
  exact ⟨hu.1.trans ht.1, hu.2.1.trans ht.2.1, hu.2.2.1.trans ht.2.2.1,
    hu.2.2.2.trans ht.2.2.2⟩

theorem kfp_append (s l : Store) : keyFieldsPreserved s (s ++ l) := by
  refine ⟨by simp, fun i hi => ?_⟩
  rw [List.getD_eq_getElem?_getD, List.getElem?_append_left hi,
    ← List.getD_eq_getElem?_getD]
  exact ⟨rfl, rfl, rfl, rfl⟩

theorem updateFirst_length (k : String) (p : Payload) :
    ∀ s : Store, (updateFirst k p s).length = s.length := by
  intro s
  induction s with
  | nil => rfl
  | cons r rest ih =>
    by_cases h : r.clave = k <;> simp [updateFirst, h, ih]

theorem updateFirst_getD (k : String) (p : Payload) :
    ∀ (s : Store) (i : ℕ),
      ((updateFirst k p s).getD i rec0).clave = (s.getD i rec0).clave ∧
      ((updateFirst k p s).getD i rec0).link = (s.getD i rec0).link ∧
      ((updateFirst k p s).getD i rec0).notas = (s.getD i rec0).notas ∧
      ((updateFirst k p s).getD i rec0).apoyo_id = (s.getD i rec0).apoyo_id := by
  intro s
  induction s with
  | nil => intro i; exact ⟨rfl, rfl, rfl, rfl⟩
  | cons r rest ih =>
    intro i
    by_cases h : r.clave = k
    · rcases i with _ | i
      · simp [updateFirst, h, updateRec]
      · simp [updateFirst, h]
    · rcases i with _ | i
      · simp [updateFirst, h]
      · simpa [updateFirst, h] using ih i

theorem kfp_updateFirst (k : String) (p : Payload) (s : Store) :
    keyFieldsPreserved s (updateFirst k p s) :=
  ⟨le_of_eq (updateFirst_length k p s).symm, fun i _ => updateFirst_getD k p s i⟩

theorem upsertRows_kfp (cols : Cols) (cc : String) :
    ∀ (rows : List Row) (store : Store) (ins upd : ℕ),
      keyFieldsPreserved store (upsertRows cols cc store rows ins upd).1 := by
  intro rows
  induction rows with
  | nil => intro store ins upd; exact kfp_refl store
  | cons r rest ih =>
    intro store ins upd
    by_cases hk : claveOf cc r = ""
    · simpa [upsertRows, hk] using ih store ins upd
    · cases hp : mkPayload cols (claveOf cc r) r with
      | error e => simpa [upsertRows, hk, hp] using kfp_refl store
      | ok p =>
        by_cases he : hasClave store (claveOf cc r) = true
        · have := ih (updateFirst (claveOf cc r) p store) ins (upd + 1)
          exact kfp_trans (kfp_updateFirst (claveOf cc r) p store)
            (by simpa [upsertRows, hk, hp, he] using this)
        · have := ih (store ++ [insertRec p]) (ins + 1) upd
          exact kfp_trans (kfp_append store [insertRec p])
            (by simpa [upsertRows, hk, hp, he] using this)

/-- C10: reconciliation never rewrites the manually maintained fields of
records already in the store — for every store position present before the
upsert, `clave`, `link`, `notas` and `apoyo_id` are unchanged afterwards,
whatever the batch carries (the SET clause of the SQL UPDATE omits them). -/
theorem c10_reconcile_preserves_manual_fields (store : Store) (b : Batch)
    (i : ℕ) (hi : i < store.length) :
    store.length ≤ ((upsert_licitaciones_from_excel store b).1).length ∧
    (((upsert_licitaciones_from_excel store b).1).getD i rec0).clave =
      (store.getD i rec0).clave ∧
    (((upsert_licitaciones_from_excel store b).1).getD i rec0).link =
      (store.getD i rec0).link ∧
    (((upsert_licitaciones_from_excel store b).1).getD i rec0).notas =
      (store.getD i rec0).notas ∧
    (((upsert_licitaciones_from_excel store b).1).getD i rec0).apoyo_id =
      (store.getD i rec0).apoyo_id := by
  have h : keyFieldsPreserved store (upsert_licitaciones_from_excel store b).1 := by
    unfold upsert_licitaciones_from_excel
    by_cases he : b.rows.isEmpty
    · simpa [he] using kfp_refl store
    · cases hc : (resolveCols b.headers).clave with
      | none => simpa [he, hc] using kfp_refl store
      | some cc => simpa [he, hc] using upsertRows_kfp (resolveCols b.headers) cc b.rows store 0 0
  exact ⟨h.1, h.2 i hi⟩

/-- C10 witness: a one-record store updated by a batch matching its clave;
position 0 keeps its clave, link, notas and apoyo_id. -/
theorem c10_reconcile_preserves_manual_fields_witness :
    ([recOld] : Store).length ≤
      ((upsert_licitaciones_from_excel [recOld] bOnlyClave).1).length ∧
    (((upsert_licitaciones_from_excel [recOld] bOnlyClave).1).getD 0 rec0).clave =
      (([recOld] : Store).getD 0 rec0).clave ∧
    (((upsert_licitaciones_from_excel [recOld] bOnlyClave).1).getD 0 rec0).link =
      (([recOld] : Store).getD 0 rec0).link ∧
    (((upsert_licitaciones_from_excel [recOld] bOnlyClave).1).getD 0 rec0).notas =
      (([recOld] : Store).getD 0 rec0).notas ∧
    (((upsert_licitaciones_from_excel [recOld] bOnlyClave).1).getD 0 rec0).apoyo_id =
      (([recOld] : Store).getD 0 rec0).apoyo_id :=
  c10_reconcile_preserves_manual_fields [recOld] bOnlyClave 0 (by decide)

/-- A batch of two rows sharing one clave. -/
def bDup : Batch :=
  { headers := ["CLAVE"]
    rows := [[("CLAVE", Cell.str "A-1")], [("CLAVE", Cell.str "A-1")]] }

/-- C8 counterexample: the claim promises `(N, 0)` for EVERY batch of rows
with non-empty keys on the first pass from an empty store, but a batch of
two rows sharing a key reports `(1, 1)` — the second row is reconciled as
an update of the record the first row just inserted. -/
theorem c8_idempotence_counterexample :
    bDup.rows.length = 2 ∧
    (upsert_licitaciones_from_excel [] bDup).2 = .ok (1, 1) := by
  refine ⟨rfl, by decide⟩

theorem updateFirst_hasClave (k : String) (p : Payload) (x : String) :
    ∀ s : Store, hasClave (updateFirst k p s) x = hasClave s x := by
  intro s
  induction s with
  | nil => rfl
  | cons r rest ih =>
    by_cases h : r.clave = k
    · simp [updateFirst, h, hasClave, updateRec]
    · simp only [updateFirst, if_neg h, hasClave, List.any_cons]
      rw [show (updateFirst k p rest).any (fun q => decide (q.clave = x)) =
        hasClave (updateFirst k p rest) x from rfl, ih, hasClave]

theorem mkPayload_clave {cols : Cols} {k : String} {r : Row} {p : Payload}
    (h : mkPayload cols k r = .ok p) : p.clave = k := by
  unfold mkPayload at h
  cases hm : montoField cols.monto r with
  | error e => rw [hm] at h; cases h
  | ok m => rw [hm] at h; cases h; rfl

theorem hasClave_append_single (s : Store) (p : Payload) (x : String) :
    hasClave (s ++ [insertRec p]) x = (hasClave s x || decide (p.clave = x)) := by
  simp [hasClave, insertRec, List.any_append]

theorem upsertRows_all_updates (cols : Cols) (cc : String) :
    ∀ (rows : List Row) (store : Store) (ins upd : ℕ),
      (∀ r ∈ rows, claveOf cc r ≠ "") →
      (∀ r ∈ rows, (mkPayload cols (claveOf cc r) r).isOk = true) →
      (∀ r ∈ rows, hasClave store (claveOf cc r) = true) →
      (upsertRows cols cc store rows ins upd).2 = .ok (ins, upd + rows.length) ∧
      (∀ x, hasClave (upsertRows cols cc store rows ins upd).1 x = hasClave store x) := by
  intro rows
  induction rows with
  | nil => intro store ins upd _ _ _; exact ⟨rfl, fun x => rfl⟩
  | cons r rest ih =>
    intro store ins upd hk hp hhc
    have hk0 := hk r (List.mem_cons_self r rest)
    have hhc0 := hhc r (List.mem_cons_self r rest)
    cases hm : mkPayload cols (claveOf cc r) r with
    | error e =>
      have := hp r (List.mem_cons_self r rest)
      rw [hm] at this
      simp [Except.isOk, Except.toBool] at this
    | ok p =>
      have heq : upsertRows cols cc store (r :: rest) ins upd =
          upsertRows cols cc (updateFirst (claveOf cc r) p store) rest ins (upd + 1) := by
        simp [upsertRows, hk0, hm, hhc0]
      have hrec := ih (updateFirst (claveOf cc r) p store) ins (upd + 1)
        (fun r' h' => hk r' (List.mem_cons_of_mem _ h'))
        (fun r' h' => hp r' (List.mem_cons_of_mem _ h'))
        (fun r' h' => by
          rw [updateFirst_hasClave]
          exact hhc r' (List.mem_cons_of_mem _ h'))
      constructor
      · rw [heq, hrec.1]
        have : upd + 1 + rest.length = upd + (rest.length + 1) := by omega
        rw [this]
        rfl
      · intro x
        rw [heq, hrec.2 x, updateFirst_hasClave]

theorem upsertRows_all_inserts (cols : Cols) (cc : String) :
    ∀ (rows : List Row) (store : Store) (ins upd : ℕ),
      (∀ r ∈ rows, claveOf cc r ≠ "") →
      (∀ r ∈ rows, (mkPayload cols (claveOf cc r) r).isOk = true) →
      (∀ r ∈ rows, hasClave store (claveOf cc r) = false) →
      (rows.map (claveOf cc)).Pairwise (fun a b => a ≠ b) →
      (upsertRows cols cc store rows ins upd).2 = .ok (ins + rows.length, upd) ∧
      (∀ x, hasClave store x = true →
        hasClave (upsertRows cols cc store rows ins upd).1 x = true) ∧
      (∀ r' ∈ rows,
        hasClave (upsertRows cols cc store rows ins upd).1 (claveOf cc r') = true) := by
  intro rows
  induction rows with
  | nil =>
    intro store ins upd _ _ _ _
    exact ⟨rfl, fun x h => h, by simp⟩
  | cons r rest ih =>
    intro store ins upd hk hp hno hpw
    have hk0 := hk r (List.mem_cons_self r rest)
    have hno0 := hno r (List.mem_cons_self r rest)
    cases hm : mkPayload cols (claveOf cc r) r with
    | error e =>
      have := hp r (List.mem_cons_self r rest)
      rw [hm] at this
      simp [Except.isOk, Except.toBool] at this
    | ok p =>
      have hpc : p.clave = claveOf cc r := mkPayload_clave hm
      have heq : upsertRows cols cc store (r :: rest) ins upd =
          upsertRows cols cc (store ++ [insertRec p]) rest (ins + 1) upd := by
        simp [upsertRows, hk0, hm, hno0]
      have hhead : ∀ b ∈ rest.map (claveOf cc), claveOf cc r ≠ b :=
        (List.pairwise_cons.mp (by simpa using hpw)).1
      have hpw' : (rest.map (claveOf cc)).Pairwise (fun a b => a ≠ b) :=
        (List.pairwise_cons.mp (by simpa using hpw)).2
      have hrec := ih (store ++ [insertRec p]) (ins + 1) upd
        (fun r' h' => hk r' (List.mem_cons_of_mem _ h'))
        (fun r' h' => hp r' (List.mem_cons_of_mem _ h'))
        (fun r' h' => by
          rw [hasClave_append_single, hpc]
          have h1 := hno r' (List.mem_cons_of_mem _ h')
          have h2 : claveOf cc r ≠ claveOf cc r' :=
            hhead (claveOf cc r') (List.mem_map_of_mem (claveOf cc) h')
          simp [h1, h2])
        hpw'
      refine ⟨?_, ?_, ?_⟩
      · rw [heq, hrec.1]
        have : ins + 1 + rest.length = ins + (rest.length + 1) := by omega
        rw [this]
        rfl
      · intro x hx
        rw [heq]
        exact hrec.2.1 x (by rw [hasClave_append_single, hx]; rfl)
      · intro r' hr'
        rcases List.mem_cons.mp hr' with h | h
        · subst h
          rw [heq]
          exact hrec.2.1 (claveOf cc r') (by rw [hasClave_append_single, hpc]; simp)
        · rw [heq]
          exact hrec.2.2 r' h

/-- C8 amended: for every batch whose rows carry non-empty, pairwise
DISTINCT keys (and whose amount cells all parse, so no row aborts the
import), reconciling twice from an empty store yields `(N, 0)` then
`(0, N)` — the duplicate-free restriction is forced by the counterexample:
the code upserts row by row instead of collapsing in-batch duplicates. -/
theorem c8_idempotence_amended (b : Batch) (cc : String)
    (hcc : (resolveCols b.headers).clave = some cc)
    (hk : ∀ r ∈ b.rows, claveOf cc r ≠ "")
    (hp : ∀ r ∈ b.rows, (mkPayload (resolveCols b.headers) (claveOf cc r) r).isOk = true)
    (hd : (b.rows.map (claveOf cc)).Pairwise (fun a b => a ≠ b)) :
    (upsert_licitaciones_from_excel [] b).2 = .ok (b.rows.length, 0) ∧
    (upsert_licitaciones_from_excel (upsert_licitaciones_from_excel [] b).1 b).2 =
      .ok (0, b.rows.length) := by
  by_cases he : b.rows.isEmpty
  · have hnil : b.rows = [] := List.isEmpty_iff.mp he
    simp [upsert_licitaciones_from_excel, he, hnil]
  · have h1 := upsertRows_all_inserts (resolveCols b.headers) cc b.rows [] 0 0
      hk hp (fun r _ => rfl) hd
    have heq1 : upsert_licitaciones_from_excel [] b =
        upsertRows (resolveCols b.headers) cc [] b.rows 0 0 := by
      simp [upsert_licitaciones_from_excel, he, hcc]
    have h2 := upsertRows_all_updates (resolveCols b.headers) cc b.rows
      (upsertRows (resolveCols b.headers) cc [] b.rows 0 0).1 0 0
      hk hp (fun r hr => h1.2.2 r hr)
    have heq2 : upsert_licitaciones_from_excel
        (upsertRows (resolveCols b.headers) cc [] b.rows 0 0).1 b =
        upsertRows (resolveCols b.headers) cc
          (upsertRows (resolveCols b.headers) cc [] b.rows 0 0).1 b.rows 0 0 := by
      simp [upsert_licitaciones_from_excel, he, hcc]
    constructor
    · rw [heq1, h1.1]
      simp
    · rw [heq1, heq2, h2.1]
      simp

/-- A two-row batch with distinct claves. -/
def bTwo : Batch :=
  { headers := ["CLAVE"]
    rows := [[("CLAVE", Cell.str "A-1")], [("CLAVE", Cell.str "B-2")]] }

/-- C8 witness: the amended idempotence at a concrete duplicate-free
two-row batch. -/
theorem c8_idempotence_amended_witness :
    (upsert_licitaciones_from_excel [] bTwo).2 = .ok (bTwo.rows.length, 0) ∧
    (upsert_licitaciones_from_excel (upsert_licitaciones_from_excel [] bTwo).1 bTwo).2 =
      .ok (0, bTwo.rows.length) :=
  c8_idempotence_amended bTwo "CLAVE" (by decide) (by decide) (by decide) (by decide)
